import Mathlib

/-!
Shallow embedding of the input/state core of the wayscriber screen-annotation
overlay (files `src/input/state/core/tool_controls.rs` and
`src/input/state/render.rs`), together with theorems settling the frozen
claims about its specification.

Modelling conventions:
* Rust `f64` values are modelled as exact rationals (`ℚ`); `f64::EPSILON`
  becomes the rational `1 / 2 ^ 52` and Rust's truncated remainder `%` is
  `fmodQ` below.
* `f64::sqrt` has no exact rational counterpart, so every operation that
  takes a square root is parameterised by a function `sq : ℚ → ℚ` standing
  for `fun x => Float.sqrt x` applied to the (exactly represented) radicand.
* `&mut self` methods become functions `InputState → args → InputState × Bool`
  (state out, returned flag); `&self` methods are pure functions of the state.
* The opaque `dirty_tracker` collaborator is modelled by a single boolean
  `dirty_full` which `mark_full` sets to `true`.
* The constants `MIN_STROKE_THICKNESS` / `MAX_STROKE_THICKNESS` live in
  `core/base.rs`, which is not part of the shown sources; the two setters
  that use them are therefore parameterised by rationals `minT maxT`.
-/

namespace Wayscriber

/-- Truncation toward zero of a rational, matching how Rust's `%` on `f64`
rounds the quotient. -/
def qtrunc (q : ℚ) : ℤ :=
  if 0 ≤ q then ⌊q⌋ else ⌈q⌉

/-- Rust's `%` on `f64` (truncated remainder, result has the dividend's sign),
transported to exact rationals. -/
def fmodQ (a b : ℚ) : ℚ :=
  a - b * (qtrunc (a / b) : ℚ)

/-- Rust's `f64::clamp(lo, hi)`: `lo` if the value is below `lo`, `hi` if it is
above `hi`, the value itself otherwise. -/
def clampQ (x lo hi : ℚ) : ℚ :=
  if x < lo then lo else if hi < x then hi else x

/-- `f64::EPSILON` (`2⁻⁵²`) as an exact rational. -/
def f64_EPSILON : ℚ := 1 / 2 ^ 52

/-- RGBA color with channels in `[0,1]`, mirroring `crate::draw::Color`
(fields `r`, `g`, `b`, `a` as used in `render.rs`). -/
structure Color where
  r : ℚ
  g : ℚ
  b : ℚ
  a : ℚ
deriving DecidableEq

/-- Modelled from the spec: `Color::from_hsv` lives in `crate::draw`, which is
not under `src/`; spec §4.3 describes it as `HSV(hue, S, V, A)` "converted to
the color representation used elsewhere", i.e. the standard HSV→RGB
conversion, which is what this definition implements. -/
def Color.from_hsv (h s v a : ℚ) : Color :=
  let c := v * s
  let hp := h / 60
  let hmod2 := hp - 2 * ((⌊hp / 2⌋ : ℤ) : ℚ)
  let x := c * (1 - |hmod2 - 1|)
  let m := v - c
  let sector : ℤ := ⌊hp⌋ % 6
  if sector = 0 then ⟨c + m, x + m, m, a⟩
  else if sector = 1 then ⟨x + m, c + m, m, a⟩
  else if sector = 2 then ⟨m, c + m, x + m, a⟩
  else if sector = 3 then ⟨m, x + m, c + m, a⟩
  else if sector = 4 then ⟨x + m, m, c + m, a⟩
  else ⟨c + m, m, x + m, a⟩

/-- Modelled from the spec: the `Tool` enumeration (`crate::input::tool`) is
not under `src/`; spec §3 lists exactly these nine variants, and the
exhaustive `match` in `get_provisional_shape` confirms them. -/
inductive Tool where
  | Pen
  | Line
  | Rect
  | Ellipse
  | Arrow
  | Marker
  | Highlight
  | Eraser
  | Select
deriving DecidableEq

/-- Modelled from the spec: the opaque font descriptor (`crate::draw`), only
ever compared by value equality in the shown sources. -/
structure FontDescriptor where
  id : Nat
deriving DecidableEq

/-- The drawing state machine (`DrawingState` in `core/base.rs`, whose payload
shape is visible in the destructuring in `render.rs` and described in spec §3).
The `TextInput` payload is opaque to this core and modelled minimally. -/
inductive DrawingState where
  | Idle
  | Drawing (tool : Tool) (start_x start_y : ℤ) (points : List (ℤ × ℤ))
  | TextInput (buffer : Nat)
deriving DecidableEq

/-- The `matches!(state, Idle | TextInput {..})` test used by
`set_tool_override`. -/
def DrawingState.isIdleOrTextInput : DrawingState → Bool
  | .Idle => true
  | .TextInput _ => true
  | .Drawing _ _ _ _ => false

/-- The shape-description union consumed from the rendering collaborator
(`crate::draw::Shape`); payloads as at the construction sites in `render.rs`. -/
inductive Shape where
  | Freehand (points : List (ℤ × ℤ)) (color : Color) (thick : ℚ)
      (per_point_colors : Option (List Color))
  | Line (x1 y1 x2 y2 : ℤ) (color : Color) (thick : ℚ)
      (start_color end_color : Option Color)
  | Rect (x y w h : ℤ) (fill : Bool) (color : Color) (thick : ℚ)
      (start_color end_color : Option Color)
  | Ellipse (cx cy rx ry : ℤ) (fill : Bool) (color : Color) (thick : ℚ)
      (start_color end_color : Option Color)
  | Arrow (x1 y1 x2 y2 : ℤ) (color : Color) (thick : ℚ)
      (arrow_length arrow_angle : ℚ) (start_color end_color : Option Color)
  | MarkerStroke (points : List (ℤ × ℤ)) (color : Color) (thick : ℚ)
      (per_point_colors : Option (List Color))
deriving DecidableEq

/-- A rendering call emitted by `render_provisional_shape` to the drawing
context: either one of the borrow-based helpers or `render_shape`. -/
inductive RenderOp where
  | freehand (points : List (ℤ × ℤ)) (color : Color) (thick : ℚ)
      (per_point_colors : Option (List Color))
  | markerStroke (points : List (ℤ × ℤ)) (color : Color) (thick : ℚ)
      (per_point_colors : Option (List Color))
  | shape (s : Shape)
deriving DecidableEq

/-- Modelled from the spec: `util::ellipse_bounds` (crate `util`, not under
`src/`), the "shared geometry helper that derives center and radii from two
opposite corners" (spec §4.5). -/
def ellipse_bounds (x1 y1 x2 y2 : ℤ) : ℤ × ℤ × ℤ × ℤ :=
  ((x1 + x2) / 2, (y1 + y2) / 2,
   (max x1 x2 - min x1 x2) / 2, (max y1 y2 - min y1 y2) / 2)

/-- The mutable input-state aggregate (`InputState` in `core/base.rs`),
restricted to the fields read or written by the two shown source files. -/
structure InputState where
  tool_override : Option Tool
  state : DrawingState
  dirty_full : Bool
  needs_redraw : Bool
  current_color : Color
  highlight_color : Color
  current_thickness : ℚ
  eraser_size : ℚ
  marker_opacity : ℚ
  font_descriptor : FontDescriptor
  current_font_size : ℚ
  toolbar_visible : Bool
  toolbar_top_visible : Bool
  toolbar_side_visible : Bool
  toolbar_top_pinned : Bool
  toolbar_side_pinned : Bool
  toolbar_use_icons : Bool
  show_more_colors : Bool
  show_actions_section : Bool
  show_delay_sliders : Bool
  show_marker_opacity_section : Bool
  fill_enabled : Bool
  rainbow_mode_enabled : Bool
  rainbow_hue : ℚ
  rainbow_hue_step_per_pixel : ℚ
  arrow_length : ℚ
  arrow_angle : ℚ
deriving DecidableEq

/-- Modelled from the spec: `sync_highlight_color` is not under `src/`; spec
§4.1 says color changes propagate so "the highlighter color must stay in sync
with the base color"; the exact tint is irrelevant to every claim and is
modelled as copying the base color. -/
def InputState.sync_highlight_color (s : InputState) : InputState :=
  { s with highlight_color := s.current_color }

/-- `set_tool_override` (tool_controls.rs:8-26). -/
def InputState.set_tool_override (s : InputState) (tool : Option Tool) :
    InputState × Bool :=
  if s.tool_override = tool then (s, false)
  else
    let s1 := { s with tool_override := tool }
    let s2 := if s1.state.isIdleOrTextInput then s1 else { s1 with state := .Idle }
    ({ s2 with dirty_full := true, needs_redraw := true }, true)

/-- `set_marker_opacity` (tool_controls.rs:29-38). -/
def InputState.set_marker_opacity (s : InputState) (opacity : ℚ) :
    InputState × Bool :=
  let clamped := clampQ opacity (1/20) (9/10)
  if |clamped - s.marker_opacity| < f64_EPSILON then (s, false)
  else ({ s with
          marker_opacity := clamped
          dirty_full := true
          needs_redraw := true }, true)

/-- `set_color` (tool_controls.rs:62-72). -/
def InputState.set_color (s : InputState) (color : Color) : InputState × Bool :=
  if s.current_color = color then (s, false)
  else
    let s1 := { s with
                current_color := color
                dirty_full := true
                needs_redraw := true }
    (s1.sync_highlight_color, true)

/-- `set_thickness` (tool_controls.rs:75-85); `minT`/`maxT` stand for the
`MIN_STROKE_THICKNESS`/`MAX_STROKE_THICKNESS` constants of `core/base.rs`. -/
def InputState.set_thickness (minT maxT : ℚ) (s : InputState) (thickness : ℚ) :
    InputState × Bool :=
  let clamped := clampQ thickness minT maxT
  if |clamped - s.current_thickness| < f64_EPSILON then (s, false)
  else ({ s with
          current_thickness := clamped
          dirty_full := true
          needs_redraw := true }, true)

/-- `set_eraser_size` (tool_controls.rs:88-97). -/
def InputState.set_eraser_size (minT maxT : ℚ) (s : InputState) (size : ℚ) :
    InputState × Bool :=
  let clamped := clampQ size minT maxT
  if |clamped - s.eraser_size| < f64_EPSILON then (s, false)
  else ({ s with
          eraser_size := clamped
          dirty_full := true
          needs_redraw := true }, true)

/-- `set_font_descriptor` (tool_controls.rs:101-110). -/
def InputState.set_font_descriptor (s : InputState) (descriptor : FontDescriptor) :
    InputState × Bool :=
  if s.font_descriptor = descriptor then (s, false)
  else ({ s with
          font_descriptor := descriptor
          dirty_full := true
          needs_redraw := true }, true)

/-- `set_font_size` (tool_controls.rs:114-124). -/
def InputState.set_font_size (s : InputState) (size : ℚ) : InputState × Bool :=
  let clamped := clampQ size 8 72
  if |clamped - s.current_font_size| < f64_EPSILON then (s, false)
  else ({ s with
          current_font_size := clamped
          dirty_full := true
          needs_redraw := true }, true)

/-- `set_toolbar_visible` (tool_controls.rs:127-141). -/
def InputState.set_toolbar_visible (s : InputState) (visible : Bool) :
    InputState × Bool :=
  if s.toolbar_visible ≠ visible ∨ s.toolbar_top_visible ≠ visible ∨
      s.toolbar_side_visible ≠ visible then
    ({ s with
       toolbar_visible := visible
       toolbar_top_visible := visible
       toolbar_side_visible := visible
       needs_redraw := true }, true)
  else (s, false)

/-- `set_fill_enabled` (tool_controls.rs:159-166). -/
def InputState.set_fill_enabled (s : InputState) (enabled : Bool) :
    InputState × Bool :=
  if s.fill_enabled = enabled then (s, false)
  else ({ s with fill_enabled := enabled, needs_redraw := true }, true)

/-- `init_toolbar_from_config` (tool_controls.rs:170-190). -/
def InputState.init_toolbar_from_config (s : InputState)
    (top_pinned side_pinned use_icons show_more_colors show_actions_section
     show_delay_sliders show_marker_opacity_section : Bool) : InputState :=
  { s with
    toolbar_top_pinned := top_pinned
    toolbar_side_pinned := side_pinned
    toolbar_top_visible := top_pinned
    toolbar_side_visible := side_pinned
    toolbar_visible := top_pinned || side_pinned
    toolbar_use_icons := use_icons
    show_more_colors := show_more_colors
    show_actions_section := show_actions_section
    show_delay_sliders := show_delay_sliders
    show_marker_opacity_section := show_marker_opacity_section }

/-- `toggle_rainbow_mode` (tool_controls.rs:213-223). -/
def InputState.toggle_rainbow_mode (s : InputState) : InputState × Bool :=
  let s1 := { s with rainbow_mode_enabled := !s.rainbow_mode_enabled }
  let s2 := if s1.rainbow_mode_enabled then { s1 with rainbow_hue := 0 } else s1
  ({ s2 with dirty_full := true, needs_redraw := true }, true)

/-- `get_rainbow_hue` (tool_controls.rs:234-236). -/
def InputState.get_rainbow_hue (s : InputState) : ℚ :=
  s.rainbow_hue

/-- `rainbow_color_at_distance` (tool_controls.rs:228-231). -/
def InputState.rainbow_color_at_distance (s : InputState) (distance : ℚ) : Color :=
  Color.from_hsv (fmodQ (distance * s.rainbow_hue_step_per_pixel) 360) 1 1 1

/-- `rainbow_color_from_hue` (tool_controls.rs:239-241); like the Rust method
it reads nothing from the state. -/
def InputState.rainbow_color_from_hue (_s : InputState) (hue : ℚ) : Color :=
  Color.from_hsv (fmodQ hue 360) 1 1 1

/-- `advance_rainbow_hue` (tool_controls.rs:245-247). -/
def InputState.advance_rainbow_hue (s : InputState) (distance : ℚ) : InputState :=
  { s with rainbow_hue :=
      fmodQ (s.rainbow_hue + distance * s.rainbow_hue_step_per_pixel) 360 }

/-- `is_rainbow_mode_enabled` (tool_controls.rs:281-283). -/
def InputState.is_rainbow_mode_enabled (s : InputState) : Bool :=
  s.rainbow_mode_enabled

/-- The radicand `dx*dx + dy*dy` of the segment length between two integer
points, exactly as the loop body of `generate_rainbow_colors_for_points`
computes it before taking `sqrt`. -/
def segSq (p q : ℤ × ℤ) : ℚ :=
  let dx : ℚ := ((q.1 - p.1 : ℤ) : ℚ)
  let dy : ℚ := ((q.2 - p.2 : ℤ) : ℚ)
  dx * dx + dy * dy

/-- The `for i in 1..points.len()` loop of
`generate_rainbow_colors_for_points`, carrying the previous point and the
accumulated `cumulative_distance`. -/
def rainbowColorsAux (sq : ℚ → ℚ) (s : InputState) :
    (ℤ × ℤ) → List (ℤ × ℤ) → ℚ → List Color
  | _, [], _ => []
  | prev, p :: tl, cum =>
      let cum2 := cum + sq (segSq prev p)
      s.rainbow_color_from_hue
        (s.rainbow_hue + cum2 * s.rainbow_hue_step_per_pixel)
        :: rainbowColorsAux sq s p tl cum2

/-- `generate_rainbow_colors_for_points` (tool_controls.rs:251-278); `sq`
stands for `f64::sqrt`. -/
def InputState.generate_rainbow_colors_for_points (s : InputState)
    (sq : ℚ → ℚ) : List (ℤ × ℤ) → List Color
  | [] => []
  | p :: rest =>
      s.rainbow_color_from_hue s.rainbow_hue :: rainbowColorsAux sq s p rest 0

/-- `marker_color` (render.rs:255-262). -/
def InputState.marker_color (s : InputState) : Color :=
  { s.current_color with
    a := clampQ (s.current_color.a * s.marker_opacity) (1/20) (9/10) }

/-- `get_provisional_shape` (render.rs:27-161); `sq` stands for `f64::sqrt`. -/
def InputState.get_provisional_shape (s : InputState) (sq : ℚ → ℚ)
    (current_x current_y : ℤ) : Option Shape :=
  match s.state with
  | .Drawing tool start_x start_y points =>
    match tool with
    | .Pen =>
        some (.Freehand points s.current_color s.current_thickness none)
    | .Line =>
        let sc_ec :=
          if s.rainbow_mode_enabled then
            let dx : ℚ := ((current_x - start_x : ℤ) : ℚ)
            let dy : ℚ := ((current_y - start_y : ℤ) : ℚ)
            let distance := sq (dx * dx + dy * dy)
            let start_hue := s.get_rainbow_hue
            let end_hue := start_hue + distance * s.rainbow_hue_step_per_pixel
            (some (s.rainbow_color_from_hue start_hue),
             some (s.rainbow_color_from_hue end_hue))
          else (none, none)
        some (.Line start_x start_y current_x current_y s.current_color
          s.current_thickness sc_ec.1 sc_ec.2)
    | .Rect =>
        let xw := if start_x ≤ current_x then (start_x, current_x - start_x)
          else (current_x, start_x - current_x)
        let yh := if start_y ≤ current_y then (start_y, current_y - start_y)
          else (current_y, start_y - current_y)
        let sc_ec :=
          if s.rainbow_mode_enabled then
            let diagonal := sq (((xw.2 * xw.2 + yh.2 * yh.2 : ℤ) : ℚ))
            let start_hue := s.get_rainbow_hue
            let end_hue := start_hue + diagonal * s.rainbow_hue_step_per_pixel
            (some (s.rainbow_color_from_hue start_hue),
             some (s.rainbow_color_from_hue end_hue))
          else (none, none)
        some (.Rect xw.1 yh.1 xw.2 yh.2 s.fill_enabled s.current_color
          s.current_thickness sc_ec.1 sc_ec.2)
    | .Ellipse =>
        let b := ellipse_bounds start_x start_y current_x current_y
        let sc_ec :=
          if s.rainbow_mode_enabled then
            let diameter : ℚ := ((b.2.2.1 * 2 : ℤ) : ℚ)
            let start_hue := s.get_rainbow_hue
            let end_hue := start_hue + diameter * s.rainbow_hue_step_per_pixel
            (some (s.rainbow_color_from_hue start_hue),
             some (s.rainbow_color_from_hue end_hue))
          else (none, none)
        some (.Ellipse b.1 b.2.1 b.2.2.1 b.2.2.2 s.fill_enabled s.current_color
          s.current_thickness sc_ec.1 sc_ec.2)
    | .Arrow =>
        let sc_ec :=
          if s.rainbow_mode_enabled then
            let dx : ℚ := ((current_x - start_x : ℤ) : ℚ)
            let dy : ℚ := ((current_y - start_y : ℤ) : ℚ)
            let distance := sq (dx * dx + dy * dy)
            let start_hue := s.get_rainbow_hue
            let end_hue := start_hue + distance * s.rainbow_hue_step_per_pixel
            (some (s.rainbow_color_from_hue start_hue),
             some (s.rainbow_color_from_hue end_hue))
          else (none, none)
        some (.Arrow start_x start_y current_x current_y s.current_color
          s.current_thickness s.arrow_length s.arrow_angle sc_ec.1 sc_ec.2)
    | .Marker =>
        some (.MarkerStroke points s.marker_color s.current_thickness none)
    | .Eraser => none
    | .Highlight => none
    | .Select => none
  | _ => none

/-- `render_provisional_shape` (render.rs:175-253), with the Cairo context
replaced by the rendering call the function would emit (`none` when nothing is
rendered); the returned `Bool` is the function's return value. -/
def InputState.render_provisional_shape (s : InputState) (sq : ℚ → ℚ)
    (current_x current_y : ℤ) : Option RenderOp × Bool :=
  match s.state with
  | .Drawing tool _ _ points =>
    match tool with
    | .Pen =>
        let colors := if s.rainbow_mode_enabled then
            some (s.generate_rainbow_colors_for_points sq points)
          else none
        (some (.freehand points s.current_color s.current_thickness colors),
         true)
    | .Highlight => (none, false)
    | .Marker =>
        let colors := if s.rainbow_mode_enabled then
            some ((s.generate_rainbow_colors_for_points sq points).map
              (fun c => { c with a := s.marker_opacity }))
          else none
        (some (.markerStroke points s.marker_color s.current_thickness colors),
         true)
    | .Eraser =>
        (some (.freehand points ⟨1, 1, 1, 7/20⟩ s.eraser_size none), true)
    | _ =>
        match s.get_provisional_shape sq current_x current_y with
        | some shape => (some (.shape shape), true)
        | none => (none, false)
  | _ => (none, false)

/-! ### Fixtures and auxiliary notions used by the theorems -/

/-- The all-zero color, used only as the default of `List.getD`. -/
def defaultColor : Color := ⟨0, 0, 0, 0⟩

/-- A concrete stand-in for `f64::sqrt`, exact at the two radicands the
concrete test vectors produce (`sqrt 25 = 5`, `sqrt 0 = 0`). -/
def sqEx : ℚ → ℚ := fun q => if q = 25 then 5 else 0

/-- A concrete baseline state: idle, no override, clean flags, red color,
thickness 3, eraser 10, marker opacity 1/2, rainbow off at hue 0 with one hue
degree per pixel. -/
def st0 : InputState where
  tool_override := none
  state := .Idle
  dirty_full := false
  needs_redraw := false
  current_color := ⟨1, 0, 0, 1⟩
  highlight_color := ⟨1, 1, 0, 1⟩
  current_thickness := 3
  eraser_size := 10
  marker_opacity := 1/2
  font_descriptor := ⟨0⟩
  current_font_size := 16
  toolbar_visible := false
  toolbar_top_visible := false
  toolbar_side_visible := false
  toolbar_top_pinned := false
  toolbar_side_pinned := false
  toolbar_use_icons := false
  show_more_colors := false
  show_actions_section := false
  show_delay_sliders := false
  show_marker_opacity_section := false
  fill_enabled := false
  rainbow_mode_enabled := false
  rainbow_hue := 0
  rainbow_hue_step_per_pixel := 1
  arrow_length := 20
  arrow_angle := 30

/-- `st0` caught mid-gesture with the pen. -/
def stD : InputState := { st0 with state := .Drawing .Pen 0 0 [(0, 0)] }

/-- `st0` with stroke thickness at the lower bound 1, used to exhibit the
sub-epsilon no-op of `set_thickness`. -/
def stT : InputState := { st0 with current_thickness := 1 }

/-- Projects the position and size out of a provisional `Rect` shape. -/
def rectDims : Option Shape → Option (ℤ × ℤ × ℤ × ℤ)
  | some (.Rect x y w h _ _ _ _ _) => some (x, y, w, h)
  | _ => none

/-- The rainbow-state operations a caller can interleave: toggling the mode
and advancing the hue by a distance. -/
inductive RainbowOp where
  | toggle
  | advance (d : ℚ)
deriving DecidableEq

/-- Applies one rainbow operation to the state (discarding the `Bool` that
`toggle_rainbow_mode` returns). -/
def applyRainbowOp (s : InputState) : RainbowOp → InputState
  | .toggle => s.toggle_rainbow_mode.1
  | .advance d => s.advance_rainbow_hue d

/-- Runs a sequence of rainbow operations left to right. -/
def runRainbowOps (s : InputState) (ops : List RainbowOp) : InputState :=
  ops.foldl applyRainbowOp s

/-- An advance is benign for a given hue step when the hue increment it
produces is nonnegative; toggles are always benign. -/
def advOk (step : ℚ) : RainbowOp → Prop
  | .toggle => True
  | .advance d => 0 ≤ d * step

instance (step : ℚ) (op : RainbowOp) : Decidable (advOk step op) :=
  match op with
  | .toggle => .isTrue trivial
  | .advance d => inferInstanceAs (Decidable (0 ≤ d * step))

/-- Cumulative Euclidean length of a polyline, with `sq` standing for
`f64::sqrt`: the sum of the segment lengths of adjacent point pairs. -/
def cumDist (sq : ℚ → ℚ) : List (ℤ × ℤ) → ℚ
  | [] => 0
  | [_] => 0
  | p :: q :: tl => sq (segSq p q) + cumDist sq (q :: tl)

/-! ### Helper lemmas -/

theorem clampQ_mem (x lo hi : ℚ) (h : lo ≤ hi) :
    lo ≤ clampQ x lo hi ∧ clampQ x lo hi ≤ hi := by
  unfold clampQ
  split_ifs <;> constructor <;> linarith

theorem clampQ_of_mem (x lo hi : ℚ) (h1 : lo ≤ x) (h2 : x ≤ hi) :
    clampQ x lo hi = x := by
  unfold clampQ
  split_ifs <;> linarith

theorem clampQ_of_lt (x lo hi : ℚ) (h : x < lo) : clampQ x lo hi = lo := by
  unfold clampQ
  rw [if_pos h]

theorem clampQ_of_gt (x lo hi : ℚ) (hlo : lo ≤ hi) (h : hi < x) :
    clampQ x lo hi = hi := by
  unfold clampQ
  split_ifs <;> linarith

theorem fmodQ_bounds (x : ℚ) (hx : 0 ≤ x) :
    0 ≤ fmodQ x 360 ∧ fmodQ x 360 < 360 := by
  have hq : (0 : ℚ) ≤ x / 360 := by positivity
  have hfloor : qtrunc (x / 360) = ⌊x / 360⌋ := by
    unfold qtrunc
    exact if_pos hq
  have h1 : ((⌊x / 360⌋ : ℤ) : ℚ) ≤ x / 360 := Int.floor_le _
  have h2 : x / 360 < ((⌊x / 360⌋ : ℤ) : ℚ) + 1 := Int.lt_floor_add_one _
  have hx360 : (360 : ℚ) * (x / 360) = x := by
    field_simp
  unfold fmodQ
  rw [hfloor]
  constructor
  · nlinarith
  · nlinarith

theorem rainbowColorsAux_length (sq : ℚ → ℚ) (s : InputState) :
    ∀ (rest : List (ℤ × ℤ)) (prev : ℤ × ℤ) (cum : ℚ),
      (rainbowColorsAux sq s prev rest cum).length = rest.length := by
  intro rest
  induction rest with
  | nil => intro prev cum; rfl
  | cons p tl ih => intro prev cum; simp [rainbowColorsAux, ih]

theorem rainbowColorsAux_getD (sq : ℚ → ℚ) (s : InputState) :
    ∀ (rest : List (ℤ × ℤ)) (prev : ℤ × ℤ) (cum : ℚ) (i : ℕ),
      i < rest.length →
      (rainbowColorsAux sq s prev rest cum).getD i defaultColor =
        s.rainbow_color_from_hue (s.rainbow_hue +
          (cum + cumDist sq (prev :: rest.take (i + 1))) *
            s.rainbow_hue_step_per_pixel) := by
  intro rest
  induction rest with
  | nil => intro prev cum i h; simp at h
  | cons p tl ih =>
    intro prev cum i h
    cases i with
    | zero =>
      simp only [rainbowColorsAux, List.getD_cons_zero, List.take_succ_cons,
        List.take_zero, cumDist]
      congr 1
      ring
    | succ i =>
      have h2 : i < tl.length := by simpa using h
      simp only [rainbowColorsAux, List.getD_cons_succ, List.take_succ_cons]
      rw [ih p (cum + sq (segSq prev p)) i h2]
      congr 1
      rw [show cumDist sq (prev :: p :: tl.take (i + 1)) =
        sq (segSq prev p) + cumDist sq (p :: tl.take (i + 1)) from rfl]
      ring

theorem applyRainbowOp_step (s : InputState) (op : RainbowOp) :
    (applyRainbowOp s op).rainbow_hue_step_per_pixel =
      s.rainbow_hue_step_per_pixel := by
  cases op with
  | toggle =>
    cases hb : s.rainbow_mode_enabled <;>
      simp [applyRainbowOp, InputState.toggle_rainbow_mode, hb]
  | advance d => rfl

theorem applyRainbowOp_hue_mem (s : InputState) (op : RainbowOp)
    (hok : advOk s.rainbow_hue_step_per_pixel op)
    (h0 : 0 ≤ s.rainbow_hue) (h1 : s.rainbow_hue < 360) :
    0 ≤ (applyRainbowOp s op).rainbow_hue ∧
      (applyRainbowOp s op).rainbow_hue < 360 := by
  cases op with
  | toggle =>
    cases hb : s.rainbow_mode_enabled
    · have hz : (applyRainbowOp s .toggle).rainbow_hue = 0 := by
        simp [applyRainbowOp, InputState.toggle_rainbow_mode, hb]
      rw [hz]
      norm_num
    · have hsame : (applyRainbowOp s .toggle).rainbow_hue = s.rainbow_hue := by
        simp [applyRainbowOp, InputState.toggle_rainbow_mode, hb]
      rw [hsame]
      exact ⟨h0, h1⟩
  | advance d =>
    have hd : (0 : ℚ) ≤ d * s.rainbow_hue_step_per_pixel := hok
    have := fmodQ_bounds (s.rainbow_hue + d * s.rainbow_hue_step_per_pixel)
      (by linarith)
    simpa [applyRainbowOp, InputState.advance_rainbow_hue] using this

theorem runRainbowOps_hue_mem :
    ∀ (ops : List RainbowOp) (s : InputState),
      (∀ op ∈ ops, advOk s.rainbow_hue_step_per_pixel op) →
      0 ≤ s.rainbow_hue → s.rainbow_hue < 360 →
      0 ≤ (runRainbowOps s ops).rainbow_hue ∧
        (runRainbowOps s ops).rainbow_hue < 360 := by
  intro ops
  induction ops with
  | nil => intro s _ h0 h1; exact ⟨h0, h1⟩
  | cons op tl ih =>
    intro s hok h0 h1
    have hhead := applyRainbowOp_hue_mem s op (hok op (by simp)) h0 h1
    have htl : ∀ o ∈ tl,
        advOk (applyRainbowOp s op).rainbow_hue_step_per_pixel o := by
      rw [applyRainbowOp_step]
      intro o ho
      exact hok o (by simp [ho])
    have := ih (applyRainbowOp s op) htl hhead.1 hhead.2
    simpa [runRainbowOps] using this

theorem rect_norm (a b : ℤ) :
    (if a ≤ b then (a, b - a) else (b, a - b)) = (min a b, |b - a|) := by
  split_ifs with h
  · rw [min_eq_left h, abs_of_nonneg (sub_nonneg.mpr h)]
  · push_neg at h
    rw [min_eq_right h.le, abs_of_nonpos (by omega), neg_sub]

theorem get_provisional_rect (sq : ℚ → ℚ) (s : InputState)
    (x1 y1 x2 y2 : ℤ) (pts : List (ℤ × ℤ)) :
    ({ s with state := .Drawing .Rect x1 y1 pts } : InputState).get_provisional_shape
        sq x2 y2 =
      some (.Rect (min x1 x2) (min y1 y2) |x2 - x1| |y2 - y1| s.fill_enabled
        s.current_color s.current_thickness
        (if s.rainbow_mode_enabled then
           some (s.rainbow_color_from_hue s.rainbow_hue)
         else none)
        (if s.rainbow_mode_enabled then
           some (s.rainbow_color_from_hue (s.rainbow_hue +
             sq (((|x2 - x1| * |x2 - x1| + |y2 - y1| * |y2 - y1| : ℤ) : ℚ)) *
               s.rainbow_hue_step_per_pixel))
         else none)) := by
  simp only [InputState.get_provisional_shape, InputState.get_rainbow_hue]
  rw [rect_norm x1 x2, rect_norm y1 y2]
  cases hr : s.rainbow_mode_enabled <;>
    simp [hr, InputState.rainbow_color_from_hue]

/-! ### Claim theorems -/

/-- C1, counterexample: in the concrete state with hue 0 and step 1 per pixel,
after `advance_rainbow_hue 10` the stored hue is 10, yet
`rainbow_color_at_distance 0` is not the color of `rainbow_color_from_hue` at
the post-advance hue — `rainbow_color_at_distance` ignores the stored hue. -/
theorem c1_counterexample :
    (st0.advance_rainbow_hue 10).rainbow_hue = 10 ∧
    (st0.advance_rainbow_hue 10).rainbow_color_at_distance 0 ≠
      (st0.advance_rainbow_hue 10).rainbow_color_from_hue
        (st0.advance_rainbow_hue 10).rainbow_hue := by
  have hhue : (st0.advance_rainbow_hue 10).rainbow_hue = 10 := by
    norm_num [st0, InputState.advance_rainbow_hue, fmodQ, qtrunc]
  refine ⟨hhue, ?_⟩
  rw [hhue]
  norm_num [st0, InputState.advance_rainbow_hue,
    InputState.rainbow_color_at_distance, InputState.rainbow_color_from_hue,
    fmodQ, qtrunc, Color.from_hsv, abs_of_nonneg, abs_of_nonpos]

/-- C1 (amended): `advance_rainbow_hue d` does update the stored hue
additively with wraparound at 360 (truncated remainder), but
`rainbow_color_at_distance` depends only on its distance argument and the hue
step, not on the stored hue: after an advance, `rainbow_color_at_distance 0`
is the color of hue 0, and in general `rainbow_color_at_distance x` equals
`rainbow_color_from_hue (x * step)`. -/
theorem c1_advance_additive_at_distance_stateless
    (s : InputState) (d : ℚ) :
    (s.advance_rainbow_hue d).rainbow_hue =
      fmodQ (s.rainbow_hue + d * s.rainbow_hue_step_per_pixel) 360 ∧
    (s.advance_rainbow_hue d).rainbow_color_at_distance 0 =
      (s.advance_rainbow_hue d).rainbow_color_from_hue 0 ∧
    (∀ x : ℚ, s.rainbow_color_at_distance x =
      s.rainbow_color_from_hue (x * s.rainbow_hue_step_per_pixel)) := by
  refine ⟨rfl, ?_, fun x => rfl⟩
  simp [InputState.rainbow_color_at_distance, InputState.rainbow_color_from_hue]

/-- C2: `set_tool_override t` returns `false` and changes nothing when `t`
equals the current override by value equality (including both `none`); when
`t` differs it returns `true`, stores `t`, collapses a state that is neither
`Idle` nor `TextInput` to `Idle`, and leaves an `Idle` or `TextInput` state
as it was. -/
theorem c2_set_tool_override (s : InputState) (t : Option Tool) :
    (t = s.tool_override → s.set_tool_override t = (s, false)) ∧
    (t ≠ s.tool_override →
      (s.set_tool_override t).2 = true ∧
      (s.set_tool_override t).1.tool_override = t ∧
      (s.state.isIdleOrTextInput = true →
        (s.set_tool_override t).1.state = s.state) ∧
      (s.state.isIdleOrTextInput = false →
        (s.set_tool_override t).1.state = .Idle)) := by
  constructor
  · intro h
    simp [InputState.set_tool_override, h]
  · intro h
    have h2 : ¬ (s.tool_override = t) := fun hh => h hh.symm
    cases hst : s.state.isIdleOrTextInput <;>
      simp [InputState.set_tool_override, h2, hst]

/-- C2 witness: from a mid-pen-gesture state with no override, overriding to
the line tool reports a change and collapses the gesture to `Idle`. -/
theorem c2_witness :
    (stD.set_tool_override (some .Line)).2 = true ∧
    (stD.set_tool_override (some .Line)).1.state = .Idle := by
  have h := (c2_set_tool_override stD (some .Line)).2 (by simp [stD, st0])
  exact ⟨h.1, h.2.2.2 rfl⟩

/-- C3, counterexample: `set_fill_enabled` on a clean state mutates the field
and returns `true`, yet leaves the invalidation tracker untouched — the claim
that every mutating setter marks the tracker fully dirty is false. -/
theorem c3_counterexample :
    (st0.set_fill_enabled true).2 = true ∧
    (st0.set_fill_enabled true).1.fill_enabled = true ∧
    (st0.set_fill_enabled true).1.dirty_full = false := by
  refine ⟨rfl, rfl, rfl⟩

/-- C3 (amended): every mutating setter call that returns `true` sets the
needs-redraw flag, and every such setter except `set_fill_enabled` and
`set_toolbar_visible` also marks the invalidation tracker fully dirty; those
two leave the tracker exactly as it was. -/
theorem c3_setters_mark_flags :
    (∀ (s : InputState) (c : Color), (s.set_color c).2 = true →
      (s.set_color c).1.dirty_full = true ∧
        (s.set_color c).1.needs_redraw = true) ∧
    (∀ (minT maxT : ℚ) (s : InputState) (v : ℚ),
      (InputState.set_thickness minT maxT s v).2 = true →
      (InputState.set_thickness minT maxT s v).1.dirty_full = true ∧
        (InputState.set_thickness minT maxT s v).1.needs_redraw = true) ∧
    (∀ (minT maxT : ℚ) (s : InputState) (v : ℚ),
      (InputState.set_eraser_size minT maxT s v).2 = true →
      (InputState.set_eraser_size minT maxT s v).1.dirty_full = true ∧
        (InputState.set_eraser_size minT maxT s v).1.needs_redraw = true) ∧
    (∀ (s : InputState) (v : ℚ), (s.set_marker_opacity v).2 = true →
      (s.set_marker_opacity v).1.dirty_full = true ∧
        (s.set_marker_opacity v).1.needs_redraw = true) ∧
    (∀ (s : InputState) (v : ℚ), (s.set_font_size v).2 = true →
      (s.set_font_size v).1.dirty_full = true ∧
        (s.set_font_size v).1.needs_redraw = true) ∧
    (∀ (s : InputState) (fd : FontDescriptor),
      (s.set_font_descriptor fd).2 = true →
      (s.set_font_descriptor fd).1.dirty_full = true ∧
        (s.set_font_descriptor fd).1.needs_redraw = true) ∧
    (∀ (s : InputState) (t : Option Tool), (s.set_tool_override t).2 = true →
      (s.set_tool_override t).1.dirty_full = true ∧
        (s.set_tool_override t).1.needs_redraw = true) ∧
    (∀ (s : InputState) (b : Bool), (s.set_fill_enabled b).2 = true →
      (s.set_fill_enabled b).1.needs_redraw = true ∧
        (s.set_fill_enabled b).1.dirty_full = s.dirty_full) ∧
    (∀ (s : InputState) (b : Bool), (s.set_toolbar_visible b).2 = true →
      (s.set_toolbar_visible b).1.needs_redraw = true ∧
        (s.set_toolbar_visible b).1.dirty_full = s.dirty_full) := by
  refine ⟨?_, ?_, ?_, ?_, ?_, ?_, ?_, ?_, ?_⟩
  · intro s c h
    simp only [InputState.set_color] at h ⊢
    split_ifs at h ⊢
    simp_all [InputState.sync_highlight_color]
  · intro minT maxT s v h
    simp only [InputState.set_thickness] at h ⊢
    split_ifs at h ⊢
    simp_all
  · intro minT maxT s v h
    simp only [InputState.set_eraser_size] at h ⊢
    split_ifs at h ⊢
    simp_all
  · intro s v h
    simp only [InputState.set_marker_opacity] at h ⊢
    split_ifs at h ⊢
    simp_all
  · intro s v h
    simp only [InputState.set_font_size] at h ⊢
    split_ifs at h ⊢
    simp_all
  · intro s fd h
    simp only [InputState.set_font_descriptor] at h ⊢
    split_ifs at h ⊢
    simp_all
  · intro s t h
    simp only [InputState.set_tool_override] at h ⊢
    split_ifs at h ⊢ <;> simp_all
  · intro s b h
    simp only [InputState.set_fill_enabled] at h ⊢
    split_ifs at h ⊢
    simp_all
  · intro s b h
    simp only [InputState.set_toolbar_visible] at h ⊢
    split_ifs at h ⊢
    simp_all

/-- C3 witness: changing the color on the baseline state reports a change,
marks the tracker fully dirty and sets the needs-redraw flag. -/
theorem c3_witness :
    (st0.set_color ⟨0, 1, 0, 1⟩).1.dirty_full = true ∧
    (st0.set_color ⟨0, 1, 0, 1⟩).1.needs_redraw = true := by
  exact c3_setters_mark_flags.1 st0 ⟨0, 1, 0, 1⟩ (by norm_num [InputState.set_color, st0])

/-- C4: `generate_rainbow_colors_for_points` is pure (a function of the state
only), returns one color per input point ([] for []), gives the first point
the current hue exactly, and gives the point at index `i` the hue
`rainbow_hue + cumDist(first i segments) * step`; on `[(0,0),(3,4),(3,4)]`
with hue 0 and step 1 the colors are those of hues `[0, 5, 5]`. -/
theorem c4_generate_rainbow_colors :
    (∀ (sq : ℚ → ℚ) (s : InputState),
      s.generate_rainbow_colors_for_points sq [] = []) ∧
    (∀ (sq : ℚ → ℚ) (s : InputState) (pts : List (ℤ × ℤ)),
      (s.generate_rainbow_colors_for_points sq pts).length = pts.length) ∧
    (∀ (sq : ℚ → ℚ) (s : InputState) (p : ℤ × ℤ) (rest : List (ℤ × ℤ)),
      (s.generate_rainbow_colors_for_points sq (p :: rest)).getD 0
          defaultColor =
        s.rainbow_color_from_hue s.rainbow_hue) ∧
    (∀ (sq : ℚ → ℚ) (s : InputState) (pts : List (ℤ × ℤ)) (i : ℕ),
      i < pts.length →
      (s.generate_rainbow_colors_for_points sq pts).getD i defaultColor =
        s.rainbow_color_from_hue (s.rainbow_hue +
          cumDist sq (pts.take (i + 1)) * s.rainbow_hue_step_per_pixel)) ∧
    st0.generate_rainbow_colors_for_points sqEx [(0, 0), (3, 4), (3, 4)] =
      [st0.rainbow_color_from_hue 0, st0.rainbow_color_from_hue 5,
       st0.rainbow_color_from_hue 5] := by
  refine ⟨fun sq s => rfl, ?_, fun sq s p rest => rfl, ?_, ?_⟩
  · intro sq s pts
    cases pts with
    | nil => rfl
    | cons p rest =>
      simp [InputState.generate_rainbow_colors_for_points,
        rainbowColorsAux_length]
  · intro sq s pts i h
    cases pts with
    | nil => simp at h
    | cons p rest =>
      cases i with
      | zero =>
        simp only [InputState.generate_rainbow_colors_for_points,
          List.getD_cons_zero, List.take_succ_cons, List.take_zero, cumDist]
        congr 1
        ring
      | succ i =>
        have h2 : i < rest.length := by simpa using h
        simp only [InputState.generate_rainbow_colors_for_points,
          List.getD_cons_succ, List.take_succ_cons]
        rw [rainbowColorsAux_getD sq s rest p 0 i h2]
        congr 1
        ring
  · norm_num [InputState.generate_rainbow_colors_for_points, rainbowColorsAux,
      segSq, sqEx, st0, InputState.rainbow_color_from_hue]

/-- C4 witness: the indexed-hue formula applied at index 1 of the concrete
two-point polyline `[(0,0),(3,4)]` in the baseline state. -/
theorem c4_witness :
    (st0.generate_rainbow_colors_for_points sqEx [(0, 0), (3, 4)]).getD 1
        defaultColor =
      st0.rainbow_color_from_hue (st0.rainbow_hue +
        cumDist sqEx ([((0 : ℤ), (0 : ℤ)), (3, 4)].take 2) *
          st0.rainbow_hue_step_per_pixel) :=
  c4_generate_rainbow_colors.2.2.2.1 sqEx st0 [(0, 0), (3, 4)] 1 (by norm_num)

/-- C5, counterexample: with bounds 1 and 100 and stored thickness 1, the
in-range input `1 + 2⁻⁵³` is within `f64::EPSILON` of the stored value, so
`set_thickness` is a no-op: the stored value does not round-trip to the
input even though the input lies inside `[MIN, MAX]`. -/
theorem c5_counterexample :
    (1 : ℚ) ≤ 1 + 1 / 2 ^ 53 ∧ ((1 : ℚ) + 1 / 2 ^ 53) ≤ 100 ∧
    InputState.set_thickness 1 100 stT (1 + 1 / 2 ^ 53) = (stT, false) ∧
    stT.current_thickness ≠ 1 + 1 / 2 ^ 53 := by
  refine ⟨by norm_num, by norm_num, ?_, by norm_num [stT, st0]⟩
  norm_num [InputState.set_thickness, clampQ, f64_EPSILON, stT, st0, abs]

/-- C5 (amended): for bounds `minT ≤ maxT`, `set_thickness` stores the
clamped input — which lies in `[minT, maxT]`, equals the input exactly when
it is in range, and saturates to the nearer bound otherwise — except when the
clamped input is within `f64::EPSILON` of the stored value, in which case the
call is a no-op and the previous value is retained; `set_eraser_size`
behaves identically on `eraser_size`. -/
theorem c5_clamping (minT maxT : ℚ) (hb : minT ≤ maxT) (s : InputState)
    (v : ℚ) :
    (|clampQ v minT maxT - s.current_thickness| < f64_EPSILON →
      InputState.set_thickness minT maxT s v = (s, false)) ∧
    (f64_EPSILON ≤ |clampQ v minT maxT - s.current_thickness| →
      (InputState.set_thickness minT maxT s v).1.current_thickness =
          clampQ v minT maxT ∧
      minT ≤ (InputState.set_thickness minT maxT s v).1.current_thickness ∧
      (InputState.set_thickness minT maxT s v).1.current_thickness ≤ maxT ∧
      (minT ≤ v → v ≤ maxT →
        (InputState.set_thickness minT maxT s v).1.current_thickness = v) ∧
      (v < minT →
        (InputState.set_thickness minT maxT s v).1.current_thickness = minT) ∧
      (maxT < v →
        (InputState.set_thickness minT maxT s v).1.current_thickness =
          maxT)) ∧
    (|clampQ v minT maxT - s.eraser_size| < f64_EPSILON →
      InputState.set_eraser_size minT maxT s v = (s, false)) ∧
    (f64_EPSILON ≤ |clampQ v minT maxT - s.eraser_size| →
      (InputState.set_eraser_size minT maxT s v).1.eraser_size =
          clampQ v minT maxT ∧
      minT ≤ (InputState.set_eraser_size minT maxT s v).1.eraser_size ∧
      (InputState.set_eraser_size minT maxT s v).1.eraser_size ≤ maxT ∧
      (minT ≤ v → v ≤ maxT →
        (InputState.set_eraser_size minT maxT s v).1.eraser_size = v) ∧
      (v < minT →
        (InputState.set_eraser_size minT maxT s v).1.eraser_size = minT) ∧
      (maxT < v →
        (InputState.set_eraser_size minT maxT s v).1.eraser_size = maxT)) := by
  refine ⟨?_, ?_, ?_, ?_⟩
  · intro h
    simp only [InputState.set_thickness]
    rw [if_pos h]
  · intro h
    have hn := not_lt.mpr h
    simp only [InputState.set_thickness]
    rw [if_neg hn]
    exact ⟨rfl, (clampQ_mem v minT maxT hb).1, (clampQ_mem v minT maxT hb).2,
      fun h1 h2 => clampQ_of_mem v minT maxT h1 h2,
      fun h1 => clampQ_of_lt v minT maxT h1,
      fun h1 => clampQ_of_gt v minT maxT hb h1⟩
  · intro h
    simp only [InputState.set_eraser_size]
    rw [if_pos h]
  · intro h
    have hn := not_lt.mpr h
    simp only [InputState.set_eraser_size]
    rw [if_neg hn]
    exact ⟨rfl, (clampQ_mem v minT maxT hb).1, (clampQ_mem v minT maxT hb).2,
      fun h1 h2 => clampQ_of_mem v minT maxT h1 h2,
      fun h1 => clampQ_of_lt v minT maxT h1,
      fun h1 => clampQ_of_gt v minT maxT hb h1⟩

/-- C5 witness: with bounds 1 and 100, setting thickness 50 from stored
thickness 3 (and eraser size 50 from stored 10) stores exactly 50. -/
theorem c5_witness :
    (InputState.set_thickness 1 100 st0 50).1.current_thickness = 50 ∧
    (InputState.set_eraser_size 1 100 st0 50).1.eraser_size = 50 := by
  have h := c5_clamping 1 100 (by norm_num) st0 50
  have e1 : clampQ 50 1 100 = 50 :=
    clampQ_of_mem 50 1 100 (by norm_num) (by norm_num)
  have hth : f64_EPSILON ≤ |clampQ (50 : ℚ) 1 100 - st0.current_thickness| := by
    rw [e1, show st0.current_thickness = 3 from rfl,
      show (50 : ℚ) - 3 = 47 by norm_num,
      abs_of_nonneg (by norm_num : (0 : ℚ) ≤ 47), f64_EPSILON]
    norm_num
  have her : f64_EPSILON ≤ |clampQ (50 : ℚ) 1 100 - st0.eraser_size| := by
    rw [e1, show st0.eraser_size = 10 from rfl,
      show (50 : ℚ) - 10 = 40 by norm_num,
      abs_of_nonneg (by norm_num : (0 : ℚ) ≤ 40), f64_EPSILON]
    norm_num
  exact ⟨(h.2.1 hth).2.2.2.1 (by norm_num) (by norm_num),
    (h.2.2.2 her).2.2.2.1 (by norm_num) (by norm_num)⟩

/-- C6, counterexample: two failures of the claim as stated. With bounds 1
and 100 and stored thickness 1, the input `1 + 2⁻⁵³` clamps to itself, which
differs from the stored value, yet the first call returns `false` (the
sub-epsilon guard); and a first `set_fill_enabled` call that does mutate
returns `true` without ever marking invalidation. -/
theorem c6_counterexample :
    stT.current_thickness ≠ clampQ (1 + 1 / 2 ^ 53) 1 100 ∧
    (InputState.set_thickness 1 100 stT (1 + 1 / 2 ^ 53)).2 = false ∧
    (st0.set_fill_enabled true).2 = true ∧
    (st0.set_fill_enabled true).1.dirty_full = false := by
  refine ⟨?_, ?_, rfl, rfl⟩
  · norm_num [clampQ, stT, st0]
  · norm_num [InputState.set_thickness, clampQ, f64_EPSILON, stT, st0, abs]

/-- C6 (amended): for every style setter and every value whose clamped form
differs from the stored value by at least `f64::EPSILON` (plain inequality
for the non-numeric setters), the first call returns `true` and sets the
needs-redraw flag — with the invalidation tracker also marked except for
`set_fill_enabled` and `set_toolbar_visible` — and an immediately repeated
call with the same value returns `false` and leaves the state exactly
unchanged. -/
theorem c6_setter_idempotence :
    (∀ (minT maxT : ℚ) (s : InputState) (v : ℚ),
      f64_EPSILON ≤ |clampQ v minT maxT - s.current_thickness| →
      (InputState.set_thickness minT maxT s v).2 = true ∧
      (InputState.set_thickness minT maxT s v).1.dirty_full = true ∧
      (InputState.set_thickness minT maxT s v).1.needs_redraw = true ∧
      InputState.set_thickness minT maxT
          (InputState.set_thickness minT maxT s v).1 v =
        ((InputState.set_thickness minT maxT s v).1, false)) ∧
    (∀ (minT maxT : ℚ) (s : InputState) (v : ℚ),
      f64_EPSILON ≤ |clampQ v minT maxT - s.eraser_size| →
      (InputState.set_eraser_size minT maxT s v).2 = true ∧
      (InputState.set_eraser_size minT maxT s v).1.dirty_full = true ∧
      (InputState.set_eraser_size minT maxT s v).1.needs_redraw = true ∧
      InputState.set_eraser_size minT maxT
          (InputState.set_eraser_size minT maxT s v).1 v =
        ((InputState.set_eraser_size minT maxT s v).1, false)) ∧
    (∀ (s : InputState) (v : ℚ),
      f64_EPSILON ≤ |clampQ v (1/20) (9/10) - s.marker_opacity| →
      (s.set_marker_opacity v).2 = true ∧
      (s.set_marker_opacity v).1.dirty_full = true ∧
      (s.set_marker_opacity v).1.needs_redraw = true ∧
      (s.set_marker_opacity v).1.set_marker_opacity v =
        ((s.set_marker_opacity v).1, false)) ∧
    (∀ (s : InputState) (v : ℚ),
      f64_EPSILON ≤ |clampQ v 8 72 - s.current_font_size| →
      (s.set_font_size v).2 = true ∧
      (s.set_font_size v).1.dirty_full = true ∧
      (s.set_font_size v).1.needs_redraw = true ∧
      (s.set_font_size v).1.set_font_size v =
        ((s.set_font_size v).1, false)) ∧
    (∀ (s : InputState) (c : Color), s.current_color ≠ c →
      (s.set_color c).2 = true ∧
      (s.set_color c).1.dirty_full = true ∧
      (s.set_color c).1.needs_redraw = true ∧
      (s.set_color c).1.set_color c = ((s.set_color c).1, false)) ∧
    (∀ (s : InputState) (fd : FontDescriptor), s.font_descriptor ≠ fd →
      (s.set_font_descriptor fd).2 = true ∧
      (s.set_font_descriptor fd).1.dirty_full = true ∧
      (s.set_font_descriptor fd).1.needs_redraw = true ∧
      (s.set_font_descriptor fd).1.set_font_descriptor fd =
        ((s.set_font_descriptor fd).1, false)) ∧
    (∀ (s : InputState) (b : Bool), s.fill_enabled ≠ b →
      (s.set_fill_enabled b).2 = true ∧
      (s.set_fill_enabled b).1.needs_redraw = true ∧
      (s.set_fill_enabled b).1.set_fill_enabled b =
        ((s.set_fill_enabled b).1, false)) ∧
    (∀ (s : InputState) (b : Bool),
      (s.toolbar_visible ≠ b ∨ s.toolbar_top_visible ≠ b ∨
        s.toolbar_side_visible ≠ b) →
      (s.set_toolbar_visible b).2 = true ∧
      (s.set_toolbar_visible b).1.needs_redraw = true ∧
      (s.set_toolbar_visible b).1.set_toolbar_visible b =
        ((s.set_toolbar_visible b).1, false)) := by
  refine ⟨?_, ?_, ?_, ?_, ?_, ?_, ?_, ?_⟩
  · intro minT maxT s v h
    have hn := not_lt.mpr h
    refine ⟨?_, ?_, ?_, ?_⟩ <;> simp only [InputState.set_thickness] <;>
      rw [if_neg hn]
    norm_num [f64_EPSILON]
  · intro minT maxT s v h
    have hn := not_lt.mpr h
    refine ⟨?_, ?_, ?_, ?_⟩ <;> simp only [InputState.set_eraser_size] <;>
      rw [if_neg hn]
    norm_num [f64_EPSILON]
  · intro s v h
    have hn := not_lt.mpr h
    refine ⟨?_, ?_, ?_, ?_⟩ <;> simp only [InputState.set_marker_opacity] <;>
      rw [if_neg hn]
    norm_num [f64_EPSILON]
  · intro s v h
    have hn := not_lt.mpr h
    refine ⟨?_, ?_, ?_, ?_⟩ <;> simp only [InputState.set_font_size] <;>
      rw [if_neg hn]
    norm_num [f64_EPSILON]
  · intro s c h
    refine ⟨?_, ?_, ?_, ?_⟩ <;>
      simp only [InputState.set_color, InputState.sync_highlight_color] <;>
      rw [if_neg h]
    simp
  · intro s fd h
    refine ⟨?_, ?_, ?_, ?_⟩ <;> simp only [InputState.set_font_descriptor] <;>
      rw [if_neg h]
    simp
  · intro s b h
    refine ⟨?_, ?_, ?_⟩ <;> simp only [InputState.set_fill_enabled] <;>
      rw [if_neg h]
    simp
  · intro s b h
    refine ⟨?_, ?_, ?_⟩ <;> simp only [InputState.set_toolbar_visible] <;>
      rw [if_pos h]
    simp

/-- C6 witness: setting thickness 50 twice on the baseline state (stored
thickness 3, bounds 1 and 100) returns `true` with both flags set, then the
repeat call returns `false` and changes nothing. -/
theorem c6_witness :
    (InputState.set_thickness 1 100 st0 50).2 = true ∧
    InputState.set_thickness 1 100
        (InputState.set_thickness 1 100 st0 50).1 50 =
      ((InputState.set_thickness 1 100 st0 50).1, false) := by
  have h : f64_EPSILON ≤ |clampQ (50 : ℚ) 1 100 - st0.current_thickness| := by
    rw [clampQ_of_mem 50 1 100 (by norm_num) (by norm_num),
      show st0.current_thickness = 3 from rfl,
      show (50 : ℚ) - 3 = 47 by norm_num,
      abs_of_nonneg (by norm_num : (0 : ℚ) ≤ 47), f64_EPSILON]
    norm_num
  have hc := c6_setter_idempotence.1 1 100 st0 50 h
  exact ⟨hc.1, hc.2.2.2⟩

/-- C7, counterexample: advancing by the negative distance −5 from hue 0
with step 1 stores hue −5, outside `[0, 360)` — Rust's `%` keeps the
dividend's sign, so the claim fails for unrestricted distances. -/
theorem c7_counterexample :
    (st0.advance_rainbow_hue (-5)).rainbow_hue = -5 ∧
    ¬ (0 ≤ (st0.advance_rainbow_hue (-5)).rainbow_hue) := by
  have h : (st0.advance_rainbow_hue (-5)).rainbow_hue = -5 := by
    norm_num [InputState.advance_rainbow_hue, st0, fmodQ, qtrunc]
  refine ⟨h, ?_⟩
  rw [h]
  norm_num

/-- C7 (amended): `toggle_rainbow_mode` resets the hue to 0 exactly on the
off→on transition and leaves it unchanged on on→off, and starting from
hue 0, any sequence of toggles and advances whose hue increments
`d * step` are all nonnegative keeps the stored hue inside `[0, 360)`; an
advance with a negative increment can leave the hue negative. -/
theorem c7_rainbow_hue_invariant :
    (∀ s : InputState, s.rainbow_mode_enabled = false →
      s.toggle_rainbow_mode.1.rainbow_hue = 0 ∧
      s.toggle_rainbow_mode.1.rainbow_mode_enabled = true) ∧
    (∀ s : InputState, s.rainbow_mode_enabled = true →
      s.toggle_rainbow_mode.1.rainbow_hue = s.rainbow_hue ∧
      s.toggle_rainbow_mode.1.rainbow_mode_enabled = false) ∧
    (∀ (s : InputState) (ops : List RainbowOp),
      s.rainbow_hue = 0 →
      (∀ op ∈ ops, advOk s.rainbow_hue_step_per_pixel op) →
      0 ≤ (runRainbowOps s ops).rainbow_hue ∧
        (runRainbowOps s ops).rainbow_hue < 360) := by
  refine ⟨?_, ?_, ?_⟩
  · intro s h
    simp [InputState.toggle_rainbow_mode, h]
  · intro s h
    simp [InputState.toggle_rainbow_mode, h]
  · intro s ops h0 hok
    exact runRainbowOps_hue_mem ops s hok (by rw [h0]) (by rw [h0]; norm_num)

/-- C7 witness: the run advance 10, toggle, advance 700 from the baseline
state (hue 0, step 1) ends with a hue inside `[0, 360)`. -/
theorem c7_witness :
    0 ≤ (runRainbowOps st0 [.advance 10, .toggle, .advance 700]).rainbow_hue ∧
    (runRainbowOps st0 [.advance 10, .toggle, .advance 700]).rainbow_hue <
      360 := by
  refine c7_rainbow_hue_invariant.2.2 st0 _ rfl ?_
  intro op hop
  simp only [List.mem_cons, List.not_mem_nil, or_false] at hop
  rcases hop with rfl | rfl | rfl
  · norm_num [advOk, st0]
  · trivial
  · norm_num [advOk, st0]

/-- C8: the provisional `Rect` is normalized — its corner is the coordinate
minimum and its size the absolute difference of the two corners — so
exchanging the gesture's start and the current pointer position yields the
identical shape; in particular dragging from `(10,10)` to `(0,0)` and from
`(0,0)` to `(10,10)` both give the rectangle at `(0,0)` with size 10×10. -/
theorem c8_rect_normalization :
    (∀ (sq : ℚ → ℚ) (s : InputState) (x1 y1 x2 y2 : ℤ) (pts : List (ℤ × ℤ)),
      rectDims (({ s with state := .Drawing .Rect x1 y1 pts } :
          InputState).get_provisional_shape sq x2 y2) =
        some (min x1 x2, min y1 y2, |x2 - x1|, |y2 - y1|)) ∧
    (∀ (sq : ℚ → ℚ) (s : InputState) (x1 y1 x2 y2 : ℤ) (pts : List (ℤ × ℤ)),
      ({ s with state := .Drawing .Rect x1 y1 pts } :
          InputState).get_provisional_shape sq x2 y2 =
        ({ s with state := .Drawing .Rect x2 y2 pts } :
          InputState).get_provisional_shape sq x1 y1) ∧
    ({ st0 with state := .Drawing .Rect 10 10 [] } :
        InputState).get_provisional_shape sqEx 0 0 =
      some (.Rect 0 0 10 10 false ⟨1, 0, 0, 1⟩ 3 none none) ∧
    ({ st0 with state := .Drawing .Rect 0 0 [] } :
        InputState).get_provisional_shape sqEx 10 10 =
      some (.Rect 0 0 10 10 false ⟨1, 0, 0, 1⟩ 3 none none) := by
  refine ⟨?_, ?_, ?_, ?_⟩
  · intro sq s x1 y1 x2 y2 pts
    rw [get_provisional_rect]
    simp [rectDims]
  · intro sq s x1 y1 x2 y2 pts
    rw [get_provisional_rect, get_provisional_rect, min_comm x2 x1,
      min_comm y2 y1, abs_sub_comm x1 x2, abs_sub_comm y1 y2]
  · rw [get_provisional_rect]
    norm_num [st0, Int.min_def, abs_of_nonpos]
  · rw [get_provisional_rect]
    norm_num [st0, Int.min_def, abs_of_nonneg]

/-- C9: `marker_color` keeps the red, green and blue channels of the current
color and replaces the alpha channel by
`clamp(current alpha × marker opacity, 0.05, 0.9)`, so the effective alpha
always lies in `[0.05, 0.9]` and is never 0 or 1; base alpha 0 with opacity
1/2 yields exactly alpha 0.05. -/
theorem c9_marker_color :
    (∀ s : InputState,
      (s.marker_color).r = s.current_color.r ∧
      (s.marker_color).g = s.current_color.g ∧
      (s.marker_color).b = s.current_color.b ∧
      (s.marker_color).a =
        clampQ (s.current_color.a * s.marker_opacity) (1/20) (9/10) ∧
      1/20 ≤ (s.marker_color).a ∧ (s.marker_color).a ≤ 9/10 ∧
      (s.marker_color).a ≠ 0 ∧ (s.marker_color).a ≠ 1) ∧
    ({ st0 with current_color := ⟨1, 0, 0, 0⟩ } : InputState).marker_color =
      ⟨1, 0, 0, 1/20⟩ := by
  constructor
  · intro s
    have hm := clampQ_mem (s.current_color.a * s.marker_opacity) (1/20) (9/10)
      (by norm_num)
    refine ⟨rfl, rfl, rfl, rfl, hm.1, hm.2, ?_, ?_⟩
    · intro hz
      have h1 := hm.1
      rw [show (s.marker_color).a =
        clampQ (s.current_color.a * s.marker_opacity) (1/20) (9/10)
        from rfl] at hz
      rw [hz] at h1
      norm_num at h1
    · intro hz
      have h2 := hm.2
      rw [show (s.marker_color).a =
        clampQ (s.current_color.a * s.marker_opacity) (1/20) (9/10)
        from rfl] at hz
      rw [hz] at h2
      norm_num at h2
  · norm_num [InputState.marker_color, clampQ, st0]

/-- C10: whenever the drawing state is not the `Drawing` variant (it is
`Idle` or `TextInput`), `get_provisional_shape` returns `none` and
`render_provisional_shape` renders nothing and returns `false`, for every
pointer position and every tool, style and rainbow setting. -/
theorem c10_not_drawing_no_preview (sq : ℚ → ℚ) (s : InputState) (x y : ℤ)
    (h : s.state.isIdleOrTextInput = true) :
    s.get_provisional_shape sq x y = none ∧
    s.render_provisional_shape sq x y = (none, false) := by
  constructor
  · cases hst : s.state with
    | Idle => simp [InputState.get_provisional_shape, hst]
    | TextInput b => simp [InputState.get_provisional_shape, hst]
    | Drawing t sx sy p =>
      rw [hst] at h
      simp [DrawingState.isIdleOrTextInput] at h
  · cases hst : s.state with
    | Idle => simp [InputState.render_provisional_shape, hst]
    | TextInput b => simp [InputState.render_provisional_shape, hst]
    | Drawing t sx sy p =>
      rw [hst] at h
      simp [DrawingState.isIdleOrTextInput] at h

/-- C10 witness: the idle baseline state yields no provisional shape and no
rendering at pointer position (5, 5). -/
theorem c10_witness :
    st0.get_provisional_shape sqEx 5 5 = none ∧
    st0.render_provisional_shape sqEx 5 5 = (none, false) :=
  c10_not_drawing_no_preview sqEx st0 5 5 rfl

end Wayscriber
